import Mathlib

/-!
Verification of the GSpot repository fragment: the chat Room document model
(src/backend/channels/chat/src/rooms/models.py) and the Admin
user/permission model (src/backend/users/backend/administrator/models.py).

Datetimes are embedded as integers (a total order with a "now" point is all
the code uses); Django query sets are embedded as lists of rows, with
queryset union as list append and `.exists()` as non-emptiness.
-/

namespace GSpot

/-! ## Chat Room model (rooms/models.py) -/

/-- Python `str.strip`, on the character list: drop leading and trailing
whitespace. -/
def pystrip (s : String) : List Char :=
  ((s.data.dropWhile Char.isWhitespace).reverse.dropWhile Char.isWhitespace).reverse

/-- Embeds `Room.validate_room_name` exactly as written in the source:
`if v.strip(): raise ValueError("Room name mustn't be empty")` — i.e. it
raises precisely when the stripped string is truthy (non-empty). -/
def validate_room_name (v : String) : Except String String :=
  if (pystrip v).isEmpty then Except.ok v
  else Except.error "Room name mustn't be empty"

/-- Embeds `Room.validate_created_at`: raises when the value is strictly
after the current time (`if v > datetime.utcnow(): raise`); `now` is the
value of `datetime.utcnow()` at the moment of the validation call. -/
def validate_created_at (now v : Int) : Except String Int :=
  if v > now then Except.error "created_at can't be in the future"
  else Except.ok v

/-- The default of the `created_at` field. In the source it is
`Field(default=datetime.utcnow())`: the call `datetime.utcnow()` is
evaluated once, when the `Room` class body is executed at module import,
and its result (`import_time` here) is stored as the fixed default. -/
def room_created_at_default (import_time : Int) : Int := import_time

structure Room where
  id : Option String
  room_name : String
  created_at : Int
deriving DecidableEq

/-- Pydantic construction of a `Room`: the default is substituted for a
missing `created_at`, then each field validator runs. `import_time` is the
module-import time captured in the field default; `now` is the wall clock
at construction time (used only by `validate_created_at`). -/
def mk_room (import_time now : Int) (id : Option String) (room_name : String)
    (created_at : Option Int) : Except String Room :=
  match validate_room_name room_name with
  | Except.error e => Except.error e
  | Except.ok name =>
    match validate_created_at now
        (created_at.getD (room_created_at_default import_time)) with
    | Except.error e => Except.error e
    | Except.ok ca => Except.ok { id := id, room_name := name, created_at := ca }

/-! ## Admin permission model (administrator/models.py) -/

inductive Taxonomy
| standard
| developer
deriving DecidableEq

/-- A permission row: `AdminPermission` rows carry taxonomy `standard`,
`DeveloperPermission` rows carry taxonomy `developer`. -/
structure Permission where
  codename : String
  taxonomy : Taxonomy
deriving DecidableEq

/-- An `AdminGroup` row together with its `permission` many-to-many set. -/
structure AdminGroup where
  permission : List Permission
deriving DecidableEq

/-- A `DeveloperGroup` row together with its permission many-to-many set. -/
structure DeveloperGroup where
  permission : List Permission
deriving DecidableEq

/-- An `Admin` actor as seen by `AdminPermissionMixin`: its flags and the
four many-to-many relations the permission predicates read. -/
structure Admin where
  is_active : Bool
  is_superuser : Bool
  user_permissions : List Permission
  groups : List AdminGroup
  developer_permissions : List Permission
  developer_groups : List DeveloperGroup
deriving DecidableEq

/-- Embeds `AdminPermissionMixin.has_perm`. The source unions the actor's
direct grants filtered on `codename=perm` with the grants of the actor's
groups so filtered, in the standard (`AdminPermission`) taxonomy and in the
developer (`DeveloperPermission`) taxonomy, and returns whether either
union `.exists()`. -/
def has_perm (a : Admin) (perm : String) : Bool :=
  if a.is_active && a.is_superuser then
    true
  else
    let user_perm := a.user_permissions.filter (fun q => q.codename == perm) ++
      ((a.groups.map AdminGroup.permission).flatten).filter (fun q => q.codename == perm)
    let dev_perm := a.developer_permissions.filter (fun q => q.codename == perm) ++
      ((a.developer_groups.map DeveloperGroup.permission).flatten).filter
        (fun q => q.codename == perm)
    !user_perm.isEmpty || !dev_perm.isEmpty

/-- Embeds `AdminPermissionMixin.get_all_permissions`:
`self.user_permissions.all() | AdminPermission.objects.filter(admingroup__admin=self)`
— the union of the direct standard grants with the standard grants of the
actor's groups; the developer taxonomy is not consulted. -/
def get_all_permissions (a : Admin) : List Permission :=
  a.user_permissions ++ (a.groups.map AdminGroup.permission).flatten

/-! ## AdminManager (user provisioning) -/

/-- An `Admin` row as `AdminManager` creates it. -/
structure AdminUser where
  username : String
  email : String
  phone : String
  password : String
  is_superuser : Bool
deriving DecidableEq

/-- External Django collaborator `UserManager.normalize_email`; no claim
depends on its behaviour, so it is embedded as the identity. -/
def normalize_email (email : String) : String := email

/-- External Django collaborator `AbstractUser.normalize_username` (NFKC
normalisation); no claim depends on its behaviour, so it is embedded as
the identity. -/
def normalize_username (username : String) : String := username

/-- External Django collaborator `make_password` (the password hasher,
an opaque service per the spec); no claim depends on its behaviour, so it
is embedded as the identity. -/
def make_password (password : String) : String := password

/-- Python `dict.setdefault` on the single `is_superuser` entry of
`extra_fields`. -/
def setdefault (o : Option Bool) (d : Bool) : Option Bool :=
  match o with
  | none => some d
  | some b => some b

/-- Embeds `AdminManager._create_admin_user`. The database is a list of
saved rows; `user.save` appends. A Python `ValueError` is an
`Except.error`; an error means no row was written. `is_superuser_field`
is the `is_superuser` entry of `extra_fields` (absent = `none`); the
`Admin` model field defaults it to `False`. -/
def create_admin_user (db : List AdminUser) (username email phone password : String)
    (is_superuser_field : Option Bool) : Except String (AdminUser × List AdminUser) :=
  if username = "" then Except.error "The given username must be set"
  else
    let user : AdminUser :=
      { username := normalize_username username
        email := normalize_email email
        phone := phone
        password := make_password password
        is_superuser := is_superuser_field.getD false }
    Except.ok (user, db ++ [user])

/-- Embeds `AdminManager.create_superuser`: `is_superuser` is defaulted to
`True` via `setdefault`, then the call fails unless the entry `is True`. -/
def create_superuser (db : List AdminUser) (username email password phone : String)
    (extra_is_superuser : Option Bool) : Except String (AdminUser × List AdminUser) :=
  let ef := setdefault extra_is_superuser true
  if ef ≠ some true then Except.error "Superuser must have is_superuser=True."
  else create_admin_user db username email phone password ef

/-- Embeds `AdminManager.create_user`: `is_superuser` is defaulted to
`False`, then `_create_admin_user` runs. -/
def create_user (db : List AdminUser) (username email password phone : String)
    (extra_is_superuser : Option Bool) : Except String (AdminUser × List AdminUser) :=
  let ef := setdefault extra_is_superuser false
  create_admin_user db username email phone password ef

/-! ## BlockReason -/

/-- External Django collaborator `MinLengthValidator(limit)`: the value
passes when its length is at least `limit`. -/
def min_length_validator (limit : Nat) (value : String) : Bool :=
  decide (limit ≤ value.length)

/-- Validation of `BlockReason.reason` as declared in the source:
`CharField(max_length=255, validators=[MinLengthValidator(3)])`. -/
def block_reason_valid (reason : String) : Bool :=
  min_length_validator 3 reason && decide (reason.length ≤ 255)

/-! ## Concrete fixtures used by witnesses -/

/-- An active superuser with no grants at all. -/
def superAdmin : Admin :=
  { is_active := true, is_superuser := true, user_permissions := [],
    groups := [], developer_permissions := [], developer_groups := [] }

/-- An active non-superuser holding the direct standard grant `X` and,
through a group, the standard grant `G`. -/
def stdAdmin : Admin :=
  { is_active := true, is_superuser := false,
    user_permissions := [{ codename := "X", taxonomy := Taxonomy.standard }],
    groups := [{ permission := [{ codename := "G", taxonomy := Taxonomy.standard }] }],
    developer_permissions := [], developer_groups := [] }

/-- An active non-superuser whose only grant is the developer-taxonomy
codename `D`, held through a developer group. -/
def devGroupAdmin : Admin :=
  { is_active := true, is_superuser := false, user_permissions := [],
    groups := [], developer_permissions := [],
    developer_groups := [{ permission := [{ codename := "D", taxonomy := Taxonomy.developer }] }] }

/-! ## Helper lemmas -/

lemma append_isEmpty_eq_false {A : Type} (l r : List A) :
    (l ++ r).isEmpty = false ↔ l.isEmpty = false ∨ r.isEmpty = false := by
  simp [List.isEmpty_iff]
  tauto

lemma filter_codename_isEmpty_eq_false (l : List Permission) (p : String) :
    (l.filter (fun q => q.codename == p)).isEmpty = false ↔ ∃ q ∈ l, q.codename = p := by
  simp [List.isEmpty_iff, List.filter_eq_nil_iff]

lemma flatten_map_filter_isEmpty_eq_false {A : Type} (gs : List A)
    (proj : A → List Permission) (p : String) :
    (((gs.map proj).flatten).filter (fun q => q.codename == p)).isEmpty = false ↔
      ∃ g ∈ gs, ∃ q ∈ proj g, q.codename = p := by
  simp [List.isEmpty_iff, List.filter_eq_nil_iff, List.mem_flatten]

lemma has_perm_eq_true_iff (a : Admin) (p : String)
    (h : (a.is_active && a.is_superuser) = false) :
    has_perm a p = true ↔
      ((∃ q ∈ a.user_permissions, q.codename = p) ∨
       (∃ g ∈ a.groups, ∃ q ∈ g.permission, q.codename = p) ∨
       (∃ q ∈ a.developer_permissions, q.codename = p) ∨
       (∃ g ∈ a.developer_groups, ∃ q ∈ g.permission, q.codename = p)) := by
  simp only [has_perm, h, Bool.false_eq_true, if_false, Bool.or_eq_true,
    Bool.not_eq_true', append_isEmpty_eq_false]
  rw [flatten_map_filter_isEmpty_eq_false, flatten_map_filter_isEmpty_eq_false,
    filter_codename_isEmpty_eq_false, filter_codename_isEmpty_eq_false]
  exact or_assoc

lemma mem_get_all_permissions_iff (a : Admin) (q : Permission) :
    q ∈ get_all_permissions a ↔
      q ∈ a.user_permissions ∨ ∃ g ∈ a.groups, q ∈ g.permission := by
  simp [get_all_permissions, List.mem_flatten]

lemma create_admin_user_ok (db : List AdminUser) (u e ph pw : String) (f : Option Bool)
    (user : AdminUser) (db2 : List AdminUser)
    (h : create_admin_user db u e ph pw f = Except.ok (user, db2)) :
    user.is_superuser = f.getD false := by
  unfold create_admin_user at h
  split at h
  · exact Except.noConfusion h
  · cases h
    rfl

lemma mk_room_default_created_at (it now : Int) (id : Option String) (n : String) (r : Room)
    (h : mk_room it now id n none = Except.ok r) : r.created_at = it := by
  unfold mk_room at h
  split at h
  · exact Except.noConfusion h
  · simp only [Option.getD_none, room_created_at_default] at h
    split at h
    · exact Except.noConfusion h
    · rename_i ca hca
      cases h
      unfold validate_created_at at hca
      split at hca
      · exact Except.noConfusion hca
      · cases hca
        rfl

/-! ## Claim theorems -/

/-- C1: the claim says an empty/whitespace-only `room_name` fails validation
and a non-empty one succeeds; the code does the exact opposite (a bug the
code contradicts with its own error message and its own `schema_extra`
example `"Test Room"`). Evaluated at the failing inputs: the source's own
example name is rejected with the "empty" error, while the empty and the
whitespace-only name are accepted. -/
theorem C1_room_name_validator_inverted :
    validate_room_name "Test Room" = Except.error "Room name mustn't be empty" ∧
    validate_room_name "" = Except.ok "" ∧
    validate_room_name "   " = Except.ok "   " := by
  refine ⟨?_, ?_, ?_⟩ <;> rfl

/-- C2: for a non-superuser (or inactive) actor, `has_perm` returns true
exactly when the union of direct and group-derived grants matching the
codename is non-empty in the standard taxonomy, or the analogous union is
non-empty in the developer taxonomy; with no matching grant anywhere it
returns false. -/
theorem C2_has_perm_non_superuser_iff (a : Admin) (p : String)
    (h : (a.is_active && a.is_superuser) = false) :
    has_perm a p = true ↔
      ((∃ q ∈ a.user_permissions, q.codename = p) ∨
       (∃ g ∈ a.groups, ∃ q ∈ g.permission, q.codename = p) ∨
       (∃ q ∈ a.developer_permissions, q.codename = p) ∨
       (∃ g ∈ a.developer_groups, ∃ q ∈ g.permission, q.codename = p)) :=
  has_perm_eq_true_iff a p h

/-- C2 witness: the actor `stdAdmin` (active, not superuser) holds the
direct standard grant `X`, so `has_perm` is true for `X`; it holds no grant
matching `Z` in either taxonomy, so `has_perm` is false for `Z`. -/
theorem C2_has_perm_non_superuser_iff_witness :
    has_perm stdAdmin "X" = true ∧ has_perm stdAdmin "Z" = false := by
  refine ⟨(C2_has_perm_non_superuser_iff stdAdmin "X" rfl).mpr (by decide), ?_⟩
  cases hb : has_perm stdAdmin "Z" with
  | false => rfl
  | true => exact absurd ((C2_has_perm_non_superuser_iff stdAdmin "Z" rfl).mp hb) (by decide)

/-- C3: an active superuser passes `has_perm` for every codename, with no
grant lookup involved. -/
theorem C3_superuser_bypass (a : Admin) (p : String)
    (h1 : a.is_active = true) (h2 : a.is_superuser = true) :
    has_perm a p = true := by
  simp [has_perm, h1, h2]

/-- C3 witness: the grantless active superuser passes `has_perm` for a
codename that exists in no permission table of the fixture. -/
theorem C3_superuser_bypass_witness :
    has_perm superAdmin "codename_in_no_table" = true :=
  C3_superuser_bypass superAdmin "codename_in_no_table" rfl rfl

/-- C4: a non-superuser actor belonging to a developer group that holds a
developer-taxonomy permission with codename `D` passes `has_perm` for `D`,
direct grants or not. -/
theorem C4_dev_group_grant (a : Admin) (D : String)
    (h : (a.is_active && a.is_superuser) = false)
    (hg : ∃ g ∈ a.developer_groups, ∃ q ∈ g.permission, q.codename = D) :
    has_perm a D = true :=
  (has_perm_eq_true_iff a D h).mpr (Or.inr (Or.inr (Or.inr hg)))

/-- C4 witness: `devGroupAdmin` has no direct grant at all, only a
developer group holding `D`, and `has_perm` is true for `D`. -/
theorem C4_dev_group_grant_witness : has_perm devGroupAdmin "D" = true :=
  C4_dev_group_grant devGroupAdmin "D" rfl (by decide)

/-- C5: a `created_at` strictly after the current time fails validation
with the "future" error; one equal to or before the current time passes. -/
theorem C5_created_at_validation (now v : Int) :
    (v > now → validate_created_at now v = Except.error "created_at can't be in the future") ∧
    (v ≤ now → validate_created_at now v = Except.ok v) := by
  constructor
  · intro h
    simp [validate_created_at, h]
  · intro h
    simp [validate_created_at, not_lt.mpr h]

/-- C5 witness: at current time 0, the value 1 is rejected and the values
0 (equal to now) and -1 (before now) are accepted. -/
theorem C5_created_at_validation_witness :
    validate_created_at 0 1 = Except.error "created_at can't be in the future" ∧
    validate_created_at 0 0 = Except.ok 0 ∧
    validate_created_at 0 (-1) = Except.ok (-1) :=
  ⟨(C5_created_at_validation 0 1).1 (by decide),
   (C5_created_at_validation 0 0).2 (by decide),
   (C5_created_at_validation 0 (-1)).2 (by decide)⟩

/-- C6: `get_all_permissions` returns exactly the union of the actor's
direct standard-taxonomy permissions and the standard-taxonomy permissions
of the actor's groups; under the schema constraint that those two tables
hold only standard-taxonomy rows, the result contains no
developer-taxonomy permission. -/
theorem C6_get_all_permissions_standard_only (a : Admin)
    (hu : ∀ q ∈ a.user_permissions, q.taxonomy = Taxonomy.standard)
    (hg : ∀ g ∈ a.groups, ∀ q ∈ g.permission, q.taxonomy = Taxonomy.standard) :
    (∀ q, q ∈ get_all_permissions a ↔
      (q ∈ a.user_permissions ∨ ∃ g ∈ a.groups, q ∈ g.permission)) ∧
    (∀ q ∈ get_all_permissions a, q.taxonomy ≠ Taxonomy.developer) := by
  refine ⟨mem_get_all_permissions_iff a, fun q hq => ?_⟩
  rcases (mem_get_all_permissions_iff a q).mp hq with hd | ⟨g, hgm, hqg⟩
  · rw [hu q hd]
    exact fun hc => Taxonomy.noConfusion hc
  · rw [hg g hgm q hqg]
    exact fun hc => Taxonomy.noConfusion hc

/-- C6 witness: for `stdAdmin` the direct grant `X` and the group grant `G`
are both in `get_all_permissions`, and every member is non-developer. -/
theorem C6_get_all_permissions_standard_only_witness :
    Permission.mk "X" Taxonomy.standard ∈ get_all_permissions stdAdmin ∧
    Permission.mk "G" Taxonomy.standard ∈ get_all_permissions stdAdmin := by
  have h := C6_get_all_permissions_standard_only stdAdmin (by decide) (by decide)
  exact ⟨(h.1 _).mpr (Or.inl (by decide)), (h.1 _).mpr (Or.inr (by decide))⟩

/-- C7: `create_user` and `create_superuser` with an empty (falsy) username
both fail with a `ValueError` (so the returned state carries no new user
record: an `Except.error` returns no database). -/
theorem C7_empty_username_fails (db : List AdminUser) (email password phone : String)
    (ex : Option Bool) :
    create_user db "" email password phone ex =
      Except.error "The given username must be set" ∧
    (∃ m, create_superuser db "" email password phone ex = Except.error m) := by
  constructor
  · rfl
  · rcases ex with _ | b
    · exact ⟨_, rfl⟩
    · cases b
      · exact ⟨_, rfl⟩
      · exact ⟨_, rfl⟩

/-- C8 counterexample: the claim says every `create_superuser` call whose
superuser flag is not explicitly set to true fails; but a call that omits
the flag entirely (`none`) succeeds, because `setdefault` fills in `True`
before the check. -/
theorem C8_counterexample_omitted_flag_succeeds :
    (none : Option Bool) ≠ some true ∧
    create_superuser [] "admin" "a@b" "pw" "123" none =
      Except.ok
        ({ username := "admin", email := "a@b", phone := "123",
           password := "pw", is_superuser := true },
         [{ username := "admin", email := "a@b", phone := "123",
            password := "pw", is_superuser := true }]) := by
  exact ⟨fun hc => Option.noConfusion hc, rfl⟩

/-- C8 amended: `create_superuser` fails when the superuser flag is
explicitly set to false (omitting it defaults it to true), and the record
of every successful `create_superuser` call has `is_superuser = true`. -/
theorem C8_superuser_flag (db : List AdminUser) (u e pw ph : String) (ex : Option Bool) :
    (ex = some false →
      create_superuser db u e pw ph ex =
        Except.error "Superuser must have is_superuser=True.") ∧
    (∀ user db2, create_superuser db u e pw ph ex = Except.ok (user, db2) →
      user.is_superuser = true) := by
  constructor
  · intro h
    subst h
    rfl
  · intro user db2 h
    rcases ex with _ | b
    · simp only [create_superuser, setdefault] at h
      rw [if_neg (by simp)] at h
      simpa using create_admin_user_ok db u e ph pw (some true) user db2 h
    · cases b
      · simp only [create_superuser, setdefault] at h
        rw [if_pos (by simp)] at h
        exact Except.noConfusion h
      · simp only [create_superuser, setdefault] at h
        rw [if_neg (by simp)] at h
        simpa using create_admin_user_ok db u e ph pw (some true) user db2 h

/-- C8 witness: the flag explicitly set to false makes `create_superuser`
fail with the superuser invariant error. -/
theorem C8_superuser_flag_witness :
    create_superuser [] "admin" "e" "pw" "ph" (some false) =
      Except.error "Superuser must have is_superuser=True." :=
  (C8_superuser_flag [] "admin" "e" "pw" "ph" (some false)).1 rfl

/-- C9: a `BlockReason.reason` shorter than 3 characters fails validation,
and one of exactly 3 characters passes. -/
theorem C9_block_reason_min_length (s : String) :
    (s.length < 3 → block_reason_valid s = false) ∧
    (s.length = 3 → block_reason_valid s = true) := by
  constructor
  · intro h
    simp only [block_reason_valid, min_length_validator]
    rw [decide_eq_false (by omega), Bool.false_and]
  · intro h
    simp only [block_reason_valid, min_length_validator, h]
    rfl

/-- C9 witness: the 2-character reason "ok" fails, the 3-character reason
"bad" passes. -/
theorem C9_block_reason_min_length_witness :
    block_reason_valid "ok" = false ∧ block_reason_valid "bad" = true :=
  ⟨(C9_block_reason_min_length "ok").1 (by decide),
   (C9_block_reason_min_length "bad").2 (by decide)⟩

/-- C10: the `created_at` default is the single `datetime.utcnow()` value
captured at class definition (module import), so every `Room` successfully
constructed without an explicit `created_at` — whatever the wall clock at
its own construction — carries that same import-time value, and any two
such rooms have equal `created_at`. -/
theorem C10_default_created_at_fixed (it now1 now2 : Int) (id1 id2 : Option String)
    (n1 n2 : String) (r1 r2 : Room)
    (h1 : mk_room it now1 id1 n1 none = Except.ok r1)
    (h2 : mk_room it now2 id2 n2 none = Except.ok r2) :
    r1.created_at = room_created_at_default it ∧ r2.created_at = r1.created_at := by
  have e1 := mk_room_default_created_at it now1 id1 n1 r1 h1
  have e2 := mk_room_default_created_at it now2 id2 n2 r2 h2
  rw [e1, e2]
  exact ⟨rfl, rfl⟩

/-- C10 witness: two rooms built with defaults at different wall clocks
(5 and 7, import time 0) both carry `created_at = 0`. -/
theorem C10_default_created_at_fixed_witness :
    ({ id := none, room_name := "", created_at := 0 } : Room).created_at =
      room_created_at_default 0 ∧
    ({ id := none, room_name := "", created_at := 0 } : Room).created_at =
      ({ id := none, room_name := "", created_at := 0 } : Room).created_at :=
  C10_default_created_at_fixed 0 5 7 none none "" ""
    { id := none, room_name := "", created_at := 0 }
    { id := none, room_name := "", created_at := 0 } rfl rfl

end GSpot
